import Mathlib

/-!
Shallow embedding of the ST7789/ST7735 LCD driver's asynchronous GRAM
streaming engine and bulk-clear orchestrator from src/src/hardware/lcd/st7789.c
(the st7735.c copies of the claimed functions are line-for-line identical up to
renaming, so one embedding serves both).

Modelling conventions:
- error_t is Int; the error constants mirror src/src/error_codes.h.
- Bus capability calls (SPI/8080 function pointers from st7789.h) are modelled
  as events appended to a trace; an externally supplied behaviour function of
  type BusEvent -> Int gives the error code each attempted call returns.
- Pointers are Nat, with 0 playing the role of NULL; PARAM_NOT_NULL(device)
  is implicit in passing the device record by value.
- The stored completion-handler function pointer (device->handler) is kept as
  a Nat id in the device; st7789_async_completed_notify receives the function
  it denotes as an explicit Option-valued argument (none models a NULL
  handler, skipped by CALL_NULLABLE_WITH_ERROR_EXIT).
- The process-wide st7789_gram_clear_config global and the heap-allocated
  st7789_gram_clear_args_t block are carried in the simulation state SimState
  alongside the device and the bus trace.
-/

/-- ALL_OK from error_codes.h. -/
def ALL_OK : Int := 0

/-- E_INVALID_ARGUMENT from error_codes.h. -/
def E_INVALID_ARGUMENT : Int := -90001

/-- E_INVALID_OPERATION from error_codes.h. -/
def E_INVALID_OPERATION : Int := -90003

/-- E_HARDWARE_TIMEOUT from error_codes.h. -/
def E_HARDWARE_TIMEOUT : Int := -60500

/-- E_HARDWARE_ERROR from error_codes.h. -/
def E_HARDWARE_ERROR : Int := -60001

/-- E_MEMORY_ALLOC_FAILED from error_codes.h. -/
def E_MEMORY_ALLOC_FAILED : Int := -70002

/-- RAMWR command byte (0x2C) from the register enum in st7789.c. -/
def RAMWR : Nat := 44

/-- CASET command byte (0x2A). -/
def CASET : Nat := 42

/-- RASET command byte (0x2B). -/
def RASET : Nat := 43

/-- st7789_async_state_t from st7789.h. -/
inductive AsyncState where
  | idle
  | bufferLoaded
  | bufferReloaded
  | transfering
  deriving DecidableEq, Repr

/-- One attempted call into the caller-supplied bus capability table
(st7789_device_spi_op_t / st7789_device_80_op_t / bus acquire+release). -/
inductive BusEvent where
  | busAcquire
  | busRelease
  | gpioCS (v : Nat)
  | gpioDC (v : Nat)
  | spiWrite (size : Nat) (data : List Nat)
  | spiWriteAsyncStart (size : Nat) (buf : Nat)
  | cmd80Write (size : Nat) (data : Nat)
  | data80Write (size : Nat) (data : List Nat)
  | data80WriteAsyncStart (size : Nat) (buf : Nat)
  deriving DecidableEq, Repr

/-- The result code each attempted bus call returns (0 is success). -/
abbrev BusBeh := BusEvent → Int

/-- The non-function-pointer configuration of st7789_device_op_t:
bus_mode is the 2-bit mode tag (1 = SPI, 2 = 8080), and the two Bool flags
record whether the nullable bus_aquire / bus_release pointers are non-NULL. -/
structure DeviceOp where
  busMode : Nat
  hostIsBigEndian : Bool
  hasBusAcquire : Bool
  hasBusRelease : Bool
  deriving DecidableEq, Repr

/-- st7789_device_t from st7789.h (bus function pointers replaced by the
trace/behaviour model; handler kept as a pointer id). -/
structure Device where
  op : DeviceOp
  handlerId : Nat
  handlerParams : Nat
  asyncState : AsyncState
  resX : Nat
  resY : Nat
  gramTxBuf : Nat
  gramTxBufSize : Nat
  deriving DecidableEq, Repr

/-- The static st7789_gram_clear_config block in st7789.c. -/
structure ClearConfig where
  clearColor : Nat
  linesLeft : Nat
  deriving DecidableEq, Repr

/-- Whole simulation state: device, the clear-config global, the heap-held
st7789_gram_clear_args_t block (pointer, its buf and buf_size fields, and
freed flags for args->buf and args), the value the clear buffer was filled
with, and the trace of attempted bus calls. -/
structure SimState where
  dev : Device
  cfg : ClearConfig
  argsPtr : Nat
  argsBuf : Nat
  argsBufSize : Nat
  bufFill : Nat
  bufFreed : Bool
  argsFreed : Bool
  trace : List BusEvent
  deriving DecidableEq, Repr

/-- Attempt one bus call: record the event, return the behaviour's code. -/
def callBus (beh : BusBeh) (e : BusEvent) (s : SimState) : Int × SimState :=
  (beh e, { s with trace := s.trace ++ [e] })

/-- CALL_NULLABLE_WITH_ERROR(device_op.bus_aquire): skipped when NULL. -/
def callBusAcquire (beh : BusBeh) (s : SimState) : Int × SimState :=
  if s.dev.op.hasBusAcquire then callBus beh BusEvent.busAcquire s else (ALL_OK, s)

/-- CALL_NULLABLE_WITH_ERROR(device_op.bus_release): skipped when NULL. -/
def callBusRelease (beh : BusBeh) (s : SimState) : Int × SimState :=
  if s.dev.op.hasBusRelease then callBus beh BusEvent.busRelease s else (ALL_OK, s)

/-- Run a sequence of bus calls, stopping at the first failure (the chain of
CALL_WITH_CODE_GOTO macros jumping to the exit label). -/
def seqCalls (beh : BusBeh) : List BusEvent → SimState → Int × SimState
  | [], s => (ALL_OK, s)
  | e :: es, s =>
    let r := callBus beh e s
    if r.1 = ALL_OK then seqCalls beh es r.2 else r

/-- U16ECV / __REV16: swap the two bytes of a 16-bit value. -/
def u16ecv (v : Nat) : Nat := v % 256 * 256 + v / 256 % 256

/-- Truncation of a C int32 value to uint16 (conversion on assignment). -/
def toU16 (i : Int) : Nat := (i % 65536).toNat

/-- 32-bit unsigned subtraction a - b as in `uint32_t delta = tick - ms`. -/
def u32sub (a b : Nat) : Nat := (a % 2 ^ 32 + 2 ^ 32 - b % 2 ^ 32) % 2 ^ 32

/-- rect_t from st7789.h. -/
structure Rect where
  top : Int
  bottom : Int
  left : Int
  right : Int
  deriving DecidableEq, Repr

/-- st7789_write_command (st7789.c lines 678-723): acquire the bus, issue the
command byte plus payload on the SPI or 8080 path (unknown mode yields
E_INVALID_ARGUMENT), then release the bus at the exit label on every path. -/
def st7789_write_command (beh : BusBeh) (s : SimState) (command : Nat)
    (pargs : List Nat) (nargs : Nat) : Int × SimState :=
  let r0 := callBusAcquire beh s
  if r0.1 ≠ ALL_OK then r0 else
  let r :=
    if r0.2.dev.op.busMode = 1 then
      seqCalls beh
        ([BusEvent.gpioDC 0, BusEvent.gpioCS 0, BusEvent.spiWrite 1 [command]] ++
          (if nargs ≠ 0 then
            [BusEvent.gpioDC 1, BusEvent.spiWrite nargs pargs, BusEvent.gpioCS 1]
          else
            [BusEvent.gpioCS 1, BusEvent.gpioDC 1])) r0.2
    else if r0.2.dev.op.busMode = 2 then
      let data := if r0.2.dev.op.hostIsBigEndian = false then u16ecv command else command
      seqCalls beh [BusEvent.cmd80Write 2 data, BusEvent.data80Write nargs pargs] r0.2
    else (E_INVALID_ARGUMENT, r0.2)
  let r1 := callBusRelease beh r.2
  if r1.1 ≠ ALL_OK then r1 else (r.1, r1.2)

/-- st7789_display_set_window (st7789.c lines 283-315): eight PARAM_CHECK
bounds tests, decrement bottom and right to inclusive end coordinates, then
send CASET and RASET with byte-swapped 16-bit begin and end words. -/
def st7789_display_set_window (beh : BusBeh) (s : SimState) (rect : Rect) :
    Int × SimState :=
  if ¬ (rect.top ≥ 0) then (E_INVALID_ARGUMENT, s)
  else if ¬ (rect.bottom ≥ 0) then (E_INVALID_ARGUMENT, s)
  else if ¬ (rect.left ≥ 0) then (E_INVALID_ARGUMENT, s)
  else if ¬ (rect.right ≥ 0) then (E_INVALID_ARGUMENT, s)
  else if ¬ (rect.top ≤ 320) then (E_INVALID_ARGUMENT, s)
  else if ¬ (rect.bottom ≤ 320) then (E_INVALID_ARGUMENT, s)
  else if ¬ (rect.left ≤ 240) then (E_INVALID_ARGUMENT, s)
  else if ¬ (rect.right ≤ 240) then (E_INVALID_ARGUMENT, s)
  else
    let r := st7789_write_command beh s CASET
      [u16ecv (toU16 rect.left), u16ecv (toU16 (rect.right - 1))] 4
    if r.1 ≠ ALL_OK then r else
    let r2 := st7789_write_command beh r.2 RASET
      [u16ecv (toU16 rect.top), u16ecv (toU16 (rect.bottom - 1))] 4
    if r2.1 ≠ ALL_OK then r2 else (ALL_OK, r2.2)

/-- st7789_update_gram_set_buff (st7789.c lines 448-474): stage a buffer.
PARAM_NOT_NULL(pbuf) is the null-pointer test; the switch sends idle and
bufferLoaded to bufferLoaded, transfering and bufferReloaded to
bufferReloaded, then stores the buffer pointer and size.  The default branch
of the C switch (E_INVALID_OPERATION) is unreachable for a well-typed
st7789_async_state_t value and therefore has no counterpart here. -/
def st7789_update_gram_set_buff (s : SimState) (bufferSize : Nat) (pbuf : Nat) :
    Int × SimState :=
  if pbuf = 0 then (E_INVALID_ARGUMENT, s) else
  match s.dev.asyncState with
  | AsyncState.bufferLoaded | AsyncState.idle =>
    (ALL_OK, { s with dev := { s.dev with
        asyncState := AsyncState.bufferLoaded,
        gramTxBufSize := bufferSize, gramTxBuf := pbuf } })
  | AsyncState.bufferReloaded | AsyncState.transfering =>
    (ALL_OK, { s with dev := { s.dev with
        asyncState := AsyncState.bufferReloaded,
        gramTxBufSize := bufferSize, gramTxBuf := pbuf } })

/-- The shared error_exit label of st7789_update_gram_stream_start and
st7789_async_completed_notify: force the async state back to idle, release
the bus (returning the release error if that call itself fails), and
otherwise return the error that sent us here. -/
def streamErrorExit (beh : BusBeh) (err : Int) (s : SimState) : Int × SimState :=
  let s1 : SimState := { s with dev := { s.dev with asyncState := AsyncState.idle } }
  let r := callBusRelease beh s1
  if r.1 ≠ ALL_OK then r else (err, r.2)

/-- The first-transfer command block of st7789_update_gram_stream_start
(st7789.c lines 505-525): send RAMWR and, on the serial bus, raise D/C and
select the chip; on the parallel bus nothing more is needed; an unknown mode
yields E_INVALID_ARGUMENT. -/
def stream_start_first_cmds (beh : BusBeh) (s : SimState) : Int × SimState :=
  let r1 := st7789_write_command beh s RAMWR [] 0
  if r1.1 ≠ ALL_OK then r1 else
  if r1.2.dev.op.busMode = 1 then
    seqCalls beh [BusEvent.gpioDC 1, BusEvent.gpioCS 0] r1.2
  else if r1.2.dev.op.busMode = 2 then (ALL_OK, r1.2)
  else (E_INVALID_ARGUMENT, r1.2)

/-- The data-dispatch block of st7789_update_gram_stream_start (lines
529-548): hand the staged buffer to the bus's asynchronous write-start
primitive of the active bus mode. -/
def stream_start_send (beh : BusBeh) (s : SimState) : Int × SimState :=
  if s.dev.op.busMode = 1 then
    callBus beh (BusEvent.spiWriteAsyncStart s.dev.gramTxBufSize s.dev.gramTxBuf) s
  else if s.dev.op.busMode = 2 then
    callBus beh (BusEvent.data80WriteAsyncStart s.dev.gramTxBufSize s.dev.gramTxBuf) s
  else (E_INVALID_ARGUMENT, s)

/-- st7789_update_gram_stream_start (st7789.c lines 476-555): reject when
already transfering or when no buffer is staged; store the handler; acquire
the bus; on a first transfer (state not bufferReloaded) run the
first-transfer command block; mark transfering; dispatch the staged buffer
via the asynchronous write-start primitive; all post-acquire failures route
through the error_exit label. -/
def st7789_update_gram_stream_start (beh : BusBeh) (s : SimState)
    (handlerId handlerParams : Nat) : Int × SimState :=
  if s.dev.asyncState = AsyncState.transfering then (E_INVALID_OPERATION, s)
  else if s.dev.asyncState ≠ AsyncState.bufferLoaded ∧
          s.dev.asyncState ≠ AsyncState.bufferReloaded then (E_INVALID_OPERATION, s)
  else
    let s1 : SimState := { s with dev := { s.dev with
        handlerId := handlerId, handlerParams := handlerParams } }
    let r0 := callBusAcquire beh s1
    if r0.1 ≠ ALL_OK then r0 else
    let rPre :=
      if r0.2.dev.asyncState ≠ AsyncState.bufferReloaded then
        stream_start_first_cmds beh r0.2
      else (ALL_OK, r0.2)
    if rPre.1 ≠ ALL_OK then streamErrorExit beh rPre.1 rPre.2 else
    let rSend := stream_start_send beh { rPre.2 with dev := { rPre.2.dev with
        asyncState := AsyncState.transfering } }
    if rSend.1 ≠ ALL_OK then streamErrorExit beh rSend.1 rSend.2 else (ALL_OK, rSend.2)

/-- st7789_async_completed_notify (st7789.c lines 557-610): reject unless
transfering; clear gram_tx_buf_size; invoke the stored nullable completion
handler (passed here as the function the stored pointer denotes); if the
buffer size is still zero, emit the end-of-transfer sequence (SPI: D/C high,
chip deselect; 8080: nothing; unknown mode: E_INVALID_ARGUMENT) and go idle;
failures route through the error_exit label. -/
def st7789_async_completed_notify (beh : BusBeh)
    (handler : Option (SimState → Int × SimState)) (s : SimState) : Int × SimState :=
  if s.dev.asyncState ≠ AsyncState.transfering then (E_INVALID_OPERATION, s)
  else
    let s1 : SimState := { s with dev := { s.dev with gramTxBufSize := 0 } }
    let rh := match handler with
      | none => (ALL_OK, s1)
      | some f => f s1
    if rh.1 ≠ ALL_OK then streamErrorExit beh rh.1 rh.2 else
    if rh.2.dev.gramTxBufSize ≠ 0 then (ALL_OK, rh.2)
    else
      let rEnd :=
        if rh.2.dev.op.busMode = 1 then
          seqCalls beh [BusEvent.gpioDC 1, BusEvent.gpioCS 1] rh.2
        else if rh.2.dev.op.busMode = 2 then (ALL_OK, rh.2)
        else (E_INVALID_ARGUMENT, rh.2)
      if rEnd.1 ≠ ALL_OK then streamErrorExit beh rEnd.1 rEnd.2
      else (ALL_OK, { rEnd.2 with dev := { rEnd.2.dev with
          asyncState := AsyncState.idle } })

/-- The while loop of st7789_wait_async_complete: at iteration i the device
state is stateAt i (it evolves only through the external completion
interrupt); each loop pass consumes one sys_get_tick reading and compares the
32-bit wrapped difference from ms against the timeout.  An empty reading list
with the state still busy means the spin has not ended within the modelled
observations (none). -/
def st7789_wait_loop (timeout ms : Nat) (stateAt : Nat → AsyncState) :
    Nat → List Nat → Option Int
  | i, [] => if stateAt i = AsyncState.idle then some ALL_OK else none
  | i, t :: rest =>
    if stateAt i = AsyncState.idle then some ALL_OK
    else if u32sub t ms > timeout then some E_HARDWARE_TIMEOUT
    else st7789_wait_loop timeout ms stateAt (i + 1) rest

/-- st7789_wait_async_complete (st7789.c lines 612-625): read ms from the
tick source, then busy-poll the async state against the deadline.  The
SimState is passed through untouched: the function body performs no bus
call. -/
def st7789_wait_async_complete (timeout : Nat) (stateAt : Nat → AsyncState)
    (ticks : List Nat) (s : SimState) : Option Int × SimState :=
  match ticks with
  | [] => (none, s)
  | ms :: rest => (st7789_wait_loop timeout ms stateAt 0 rest, s)

/-- st7789_clear_gram_set_buf (st7789.c lines 379-396): cap the lines to
write by both the ping-pong buffer's line capacity (args->buf_size divided by
the panel width) and the remaining lines; stage that many pixels via
st7789_update_gram_set_buff; decrement the global lines_left counter. -/
def st7789_clear_gram_set_buf (s : SimState) : Int × SimState :=
  let linesCanWrite := s.argsBufSize / s.dev.resX
  let linesToWrite :=
    if s.cfg.linesLeft > linesCanWrite then linesCanWrite else s.cfg.linesLeft
  let npixels := s.dev.resX * linesToWrite
  let r := st7789_update_gram_set_buff s npixels s.argsBuf
  if r.1 ≠ ALL_OK then r
  else (ALL_OK, { r.2 with cfg := { r.2.cfg with
      linesLeft := r.2.cfg.linesLeft - linesToWrite } })

/-- Pointer id standing for the st7789_clear_gram_cplt_handler function. -/
def clearHandlerId : Nat := 1

/-- st7789_clear_gram_cplt_handler (st7789.c lines 776-798): while scanlines
remain, stage the next chunk and re-arm the stream with itself as the next
completion handler; once no scanlines remain, free args->buf and args and
return without re-arming. -/
def st7789_clear_gram_cplt_handler (beh : BusBeh) (s : SimState) : Int × SimState :=
  if s.cfg.linesLeft > 0 then
    let r := st7789_clear_gram_set_buf s
    if r.1 ≠ ALL_OK then r
    else st7789_update_gram_stream_start beh r.2 clearHandlerId r.2.argsPtr
  else (ALL_OK, { s with bufFreed := true, argsFreed := true })

/-- st7789_display_clear_gram_async (st7789.c lines 398-446): allocate a
5-scanline pixel buffer and the args block (mallocPbuf and mallocArgs are the
two malloc results, none meaning NULL); the args fields are stored before the
null test, which returns E_MEMORY_ALLOC_FAILED when either allocation failed;
fill the buffer with the byte-swapped color; set the full-panel window; set
the global clear config; finally invoke the completion handler once to
bootstrap the pipeline, discarding its return value (line 443), and return
ALL_OK. -/
def st7789_display_clear_gram_async (beh : BusBeh) (mallocPbuf mallocArgs : Option Nat)
    (s : SimState) (color : Nat) : Int × SimState :=
  let rect : Rect :=
    { top := 0, left := 0, bottom := (s.dev.resY : Int), right := (s.dev.resX : Int) }
  let cacheBufferSize := 5 * s.dev.resX
  let s1 : SimState := match mallocArgs with
    | some p => { s with argsPtr := p, argsBufSize := cacheBufferSize,
                         argsBuf := match mallocPbuf with | some q => q | none => 0 }
    | none => s
  if mallocPbuf = none ∨ mallocArgs = none then (E_MEMORY_ALLOC_FAILED, s1)
  else
    let s2 : SimState := { s1 with bufFill := u16ecv (color % 65536) }
    let r := st7789_display_set_window beh s2 rect
    if r.1 ≠ ALL_OK then r
    else
      let s3 : SimState := { r.2 with cfg :=
        { clearColor := color % 65536, linesLeft := s.dev.resY } }
      let rBoot := st7789_clear_gram_cplt_handler beh s3
      (ALL_OK, rBoot.2)

/-- Driver loop for the bulk clear: deliver completion interrupts (each one
running st7789_async_completed_notify with the self-re-arming clear handler)
for as long as a transfer is outstanding, up to the given fuel.  Returns the
number of completion-notify cycles delivered, the first error, and the final
state. -/
def clearNotifyRun (beh : BusBeh) : Nat → SimState → Nat × Int × SimState
  | 0, s => (0, ALL_OK, s)
  | fuel + 1, s =>
    if s.dev.asyncState = AsyncState.transfering then
      let r := st7789_async_completed_notify beh
        (some (st7789_clear_gram_cplt_handler beh)) s
      if r.1 ≠ ALL_OK then (1, r.1, r.2)
      else
        let rest := clearNotifyRun beh fuel r.2
        (rest.1 + 1, rest.2.1, rest.2.2)
    else (0, ALL_OK, s)

/-- Sizes handed to the asynchronous write-start primitives, in trace order:
the pixel counts of the chunks actually dispatched to the panel. -/
def asyncStartSizes : List BusEvent → List Nat
  | [] => []
  | BusEvent.spiWriteAsyncStart n _ :: r => n :: asyncStartSizes r
  | BusEvent.data80WriteAsyncStart n _ :: r => n :: asyncStartSizes r
  | BusEvent.busAcquire :: r => asyncStartSizes r
  | BusEvent.busRelease :: r => asyncStartSizes r
  | BusEvent.gpioCS _ :: r => asyncStartSizes r
  | BusEvent.gpioDC _ :: r => asyncStartSizes r
  | BusEvent.spiWrite _ _ :: r => asyncStartSizes r
  | BusEvent.cmd80Write _ _ :: r => asyncStartSizes r
  | BusEvent.data80Write _ _ :: r => asyncStartSizes r

/-- The always-succeeding bus behaviour. -/
def behOK : BusBeh := fun _ => ALL_OK

/-- Bus behaviour whose asynchronous write-start primitive fails with a
hardware error while every other capability call succeeds. -/
def behAsyncFail : BusBeh := fun e =>
  match e with
  | BusEvent.spiWriteAsyncStart _ _ => E_HARDWARE_ERROR
  | BusEvent.data80WriteAsyncStart _ _ => E_HARDWARE_ERROR
  | _ => ALL_OK

/-- A fresh SPI-mode simulation state entering the clear pipeline: panel
width w, the clear config already holding h remaining lines, the args block
holding a buffer of bufSize pixels at non-null pointer buf, no bus
acquire/release hooks installed, device idle with an empty trace. -/
def mkClearSim (w h bufSize buf : Nat) : SimState :=
  { dev := { op := { busMode := 1, hostIsBigEndian := false,
                     hasBusAcquire := false, hasBusRelease := false },
             handlerId := 0, handlerParams := 0, asyncState := AsyncState.idle,
             resX := w, resY := h, gramTxBuf := 0, gramTxBufSize := 0 },
    cfg := { clearColor := 0, linesLeft := h },
    argsPtr := 2, argsBuf := buf, argsBufSize := bufSize, bufFill := 0,
    bufFreed := false, argsFreed := false, trace := [] }

/-- Device of mkClearSim 1 1 1 1 but already holding a loaded buffer. -/
def c1sim : SimState :=
  { mkClearSim 1 1 1 1 with dev :=
    { (mkClearSim 1 1 1 1).dev with asyncState := AsyncState.bufferLoaded } }

/-- Device whose 2-bit bus mode tag is 0 (neither SPI nor 8080), with bus
acquire and release hooks installed. -/
def c7sim : SimState :=
  { mkClearSim 1 1 1 1 with dev := { (mkClearSim 1 1 1 1).dev with op :=
    { busMode := 0, hostIsBigEndian := false,
      hasBusAcquire := true, hasBusRelease := true } } }

/-- A 1-by-1 SPI panel about to start an asynchronous clear. -/
def c9sim : SimState := mkClearSim 1 1 0 0

/-- The state st7789_display_clear_gram_async reaches right before its
bootstrap call of the completion handler (after the malloc stores, buffer
fill, set-window and clear-config assignment) on c9sim with behAsyncFail. -/
def c9mid : SimState :=
  { (st7789_display_set_window behAsyncFail
      { c9sim with argsPtr := 2, argsBufSize := 5, argsBuf := 1, bufFill := u16ecv 0 }
      { top := 0, left := 0, bottom := 1, right := 1 }).2 with
    cfg := { clearColor := 0, linesLeft := 1 } }

/-- A device mid-transfer for the C3 witness. -/
def c3sim : SimState :=
  { mkClearSim 1 1 1 1 with dev :=
    { (mkClearSim 1 1 1 1).dev with asyncState := AsyncState.transfering } }

/-- A serial device with acquire and release hooks, a loaded buffer, mid
clear pipeline, used for the C5 witness. -/
def c5sim : SimState :=
  { mkClearSim 1 1 1 1 with dev := { (mkClearSim 1 1 1 1).dev with
      op := { busMode := 1, hostIsBigEndian := false,
              hasBusAcquire := true, hasBusRelease := true },
      asyncState := AsyncState.bufferLoaded, gramTxBuf := 1, gramTxBufSize := 5 } }

/-- Invariant of a clear pipeline in flight: serial bus, no acquire/release
hooks, panel width w, args block holding a buffer of B pixels at non-null
pointer buf, device mid-transfer. -/
structure ClearMidInv (w B buf : Nat) (s : SimState) : Prop where
  hstate : s.dev.asyncState = AsyncState.transfering
  hresX : s.dev.resX = w
  hmode : s.dev.op.busMode = 1
  hbsize : s.argsBufSize = B
  habuf : s.argsBuf = buf
  hacq : s.dev.op.hasBusAcquire = false
  hrel : s.dev.op.hasBusRelease = false

/-- The whole bulk-clear pipeline: bootstrap invocation of the clear handler
from a fresh idle device, then completion interrupts until the transfer
ends. -/
def clearBootRun (w h B buf fuel : Nat) : Nat × Int × SimState :=
  clearNotifyRun behOK fuel
    (st7789_clear_gram_cplt_handler behOK (mkClearSim w h B buf)).2

/-- A sequence of bus calls under an always-succeeding behaviour succeeds and
appends exactly its events to the trace. -/
theorem seqCalls_ok (beh : BusBeh) (es : List BusEvent) (s : SimState)
    (h : ∀ e, beh e = ALL_OK) :
    seqCalls beh es s = (ALL_OK, { s with trace := s.trace ++ es }) := by
  induction es generalizing s with
  | nil => simp [seqCalls]
  | cons e es ih => simp [seqCalls, callBus, h, ih]

/-- C1 counterexample: with the async state BufferLoaded (a state other than
Idle and Transferring), st7789_update_gram_set_buff does not fail with
InvalidOperation: it succeeds, and it changes the device. -/
theorem claim_C1_counterexample :
    (st7789_update_gram_set_buff c1sim 7 1).1 = ALL_OK ∧
    (st7789_update_gram_set_buff c1sim 7 1).1 ≠ E_INVALID_OPERATION ∧
    (st7789_update_gram_set_buff c1sim 7 1).2 ≠ c1sim := by decide

/-- C1 (amended): for every device and non-null buffer,
st7789_update_gram_set_buff succeeds in every async state: from Idle or
BufferLoaded it moves to BufferLoaded, from Transferring or BufferReloaded it
moves to BufferReloaded; it stores the staged pointer and size, touches
nothing else, and never fails with InvalidOperation. -/
theorem claim_C1_set_buff_transitions (s : SimState) (bufSize pbuf : Nat)
    (hp : pbuf ≠ 0) :
    st7789_update_gram_set_buff s bufSize pbuf =
      (ALL_OK, { s with dev := { s.dev with
        asyncState :=
          if s.dev.asyncState = AsyncState.idle ∨
             s.dev.asyncState = AsyncState.bufferLoaded
          then AsyncState.bufferLoaded else AsyncState.bufferReloaded,
        gramTxBufSize := bufSize, gramTxBuf := pbuf } }) := by
  cases h : s.dev.asyncState <;>
    simp [st7789_update_gram_set_buff, hp, h]

/-- C1 witness: the amended transition theorem applied at a concrete idle
device. -/
theorem claim_C1_set_buff_transitions_witness :
    st7789_update_gram_set_buff (mkClearSim 1 1 1 1) 7 1 =
      (ALL_OK, { mkClearSim 1 1 1 1 with dev := { (mkClearSim 1 1 1 1).dev with
        asyncState := AsyncState.bufferLoaded, gramTxBufSize := 7, gramTxBuf := 1 } }) := by
  rw [claim_C1_set_buff_transitions (mkClearSim 1 1 1 1) 7 1 (by decide)]
  decide

/-- C2: st7789_update_gram_stream_start called while Transferring, or while
Idle (no buffer staged), fails with E_INVALID_OPERATION and returns the
simulation state unchanged: async state, staged buffer pointer and size,
handler fields and trace are all untouched. -/
theorem claim_C2_stream_start_rejects (beh : BusBeh) (s : SimState) (hid hp : Nat)
    (h : s.dev.asyncState = AsyncState.transfering ∨
         s.dev.asyncState = AsyncState.idle) :
    st7789_update_gram_stream_start beh s hid hp = (E_INVALID_OPERATION, s) := by
  rcases h with h | h <;> simp [st7789_update_gram_stream_start, h]

/-- C2 witness: the rejection theorem applied at a concrete idle device and
at a concrete transfering device. -/
theorem claim_C2_stream_start_rejects_witness :
    st7789_update_gram_stream_start behOK (mkClearSim 1 1 1 1) 0 0 =
      (E_INVALID_OPERATION, mkClearSim 1 1 1 1) :=
  claim_C2_stream_start_rejects behOK (mkClearSim 1 1 1 1) 0 0 (Or.inr rfl)

/-- C7 counterexample: on a device whose bus mode is neither serial nor
parallel, st7789_write_command fails with E_INVALID_ARGUMENT, not with
E_INVALID_OPERATION as the claim states. -/
theorem claim_C7_counterexample :
    (st7789_write_command behOK c7sim 44 [] 0).1 = E_INVALID_ARGUMENT ∧
    (st7789_write_command behOK c7sim 44 [] 0).1 ≠ E_INVALID_OPERATION := by decide

/-- C7 (amended): for every device whose bus mode is neither serial (1) nor
parallel (2), st7789_write_command fails with E_INVALID_ARGUMENT, and when a
bus release hook is installed the last attempted bus call before returning is
the release. -/
theorem claim_C7_invalid_mode (beh : BusBeh) (s : SimState) (command : Nat)
    (pargs : List Nat) (nargs : Nat)
    (hm1 : s.dev.op.busMode ≠ 1) (hm2 : s.dev.op.busMode ≠ 2)
    (hacq : s.dev.op.hasBusAcquire = true → beh BusEvent.busAcquire = ALL_OK)
    (hrel : beh BusEvent.busRelease = ALL_OK) :
    (st7789_write_command beh s command pargs nargs).1 = E_INVALID_ARGUMENT ∧
    (s.dev.op.hasBusRelease = true →
      (st7789_write_command beh s command pargs nargs).2.trace.getLast? =
        some BusEvent.busRelease) := by
  by_cases hA : s.dev.op.hasBusAcquire
  · by_cases hR : s.dev.op.hasBusRelease <;>
      simp [st7789_write_command, callBusAcquire, callBusRelease, callBus,
            hA, hR, hm1, hm2, hacq hA, hrel, List.getLast?_concat]
  · by_cases hR : s.dev.op.hasBusRelease <;>
      simp [st7789_write_command, callBusAcquire, callBusRelease, callBus,
            hA, hR, hm1, hm2, hrel, List.getLast?_concat]

/-- C7 witness: the amended theorem applied at the concrete mode-0 device. -/
theorem claim_C7_invalid_mode_witness :
    (st7789_write_command behOK c7sim 44 [] 0).1 = E_INVALID_ARGUMENT ∧
    (c7sim.dev.op.hasBusRelease = true →
      (st7789_write_command behOK c7sim 44 [] 0).2.trace.getLast? =
        some BusEvent.busRelease) :=
  claim_C7_invalid_mode behOK c7sim 44 [] 0 (by decide) (by decide)
    (fun _ => rfl) rfl

/-- C8: st7789_display_clear_gram_async returns E_MEMORY_ALLOC_FAILED when
either the pixel-buffer allocation or the args-block allocation fails. -/
theorem claim_C8_alloc_failure (beh : BusBeh) (mp ma : Option Nat) (s : SimState)
    (color : Nat) (h : mp = none ∨ ma = none) :
    (st7789_display_clear_gram_async beh mp ma s color).1 = E_MEMORY_ALLOC_FAILED := by
  simp [st7789_display_clear_gram_async, h]

/-- C8 witness: the allocation-failure theorem at a concrete failing pixel
allocation. -/
theorem claim_C8_alloc_failure_witness :
    (st7789_display_clear_gram_async behOK none (some 2) (mkClearSim 1 1 1 1) 0).1 =
      E_MEMORY_ALLOC_FAILED :=
  claim_C8_alloc_failure behOK none (some 2) (mkClearSim 1 1 1 1) 0 (Or.inl rfl)

/-- C9: when the bus's asynchronous write-start primitive fails, the
bootstrap invocation of st7789_clear_gram_cplt_handler inside
st7789_display_clear_gram_async fails with E_HARDWARE_ERROR, yet
st7789_display_clear_gram_async still returns ALL_OK: the handler's return
value at st7789.c line 443 is discarded, so the failure code is not
propagated to the caller.  The third conjunct ties c9mid to the actual run:
the state clear_gram_async ends in is exactly the state the failed bootstrap
handler call produces from c9mid. -/
theorem claim_C9_bootstrap_error_swallowed :
    (st7789_display_clear_gram_async behAsyncFail (some 1) (some 2) c9sim 0).1 = ALL_OK ∧
    (st7789_clear_gram_cplt_handler behAsyncFail c9mid).1 = E_HARDWARE_ERROR ∧
    (st7789_display_clear_gram_async behAsyncFail (some 1) (some 2) c9sim 0).2 =
      (st7789_clear_gram_cplt_handler behAsyncFail c9mid).2 := by decide

/-- C3: for a device in Transferring state under a fault-free bus,
st7789_async_completed_notify clears gram_tx_buf_size, invokes the stored
completion handler f on that cleared state (hf names its result), and then:
if the handler left the staged size zero, on the serial bus it emits the
end-of-transfer sequence exactly once (D/C high then chip deselect, appended
once to the trace) and goes Idle; on the parallel bus it emits nothing and
goes Idle; if the handler staged a non-empty buffer, nothing further happens
and the device stays exactly as the handler left it (mid-stream). -/
theorem claim_C3_completion_notify (beh : BusBeh) (f : SimState → Int × SimState)
    (s : SimState) (e1 : Int) (s1 : SimState)
    (hst : s.dev.asyncState = AsyncState.transfering)
    (hbeh : ∀ e, beh e = ALL_OK)
    (hf : f { s with dev := { s.dev with gramTxBufSize := 0 } } = (e1, s1))
    (he : e1 = ALL_OK) :
    (s1.dev.gramTxBufSize = 0 → s1.dev.op.busMode = 1 →
      st7789_async_completed_notify beh (some f) s =
        (ALL_OK, { s1 with
            dev := { s1.dev with asyncState := AsyncState.idle },
            trace := s1.trace ++ [BusEvent.gpioDC 1, BusEvent.gpioCS 1] })) ∧
    (s1.dev.gramTxBufSize = 0 → s1.dev.op.busMode = 2 →
      st7789_async_completed_notify beh (some f) s =
        (ALL_OK, { s1 with dev := { s1.dev with asyncState := AsyncState.idle } })) ∧
    (s1.dev.gramTxBufSize ≠ 0 →
      st7789_async_completed_notify beh (some f) s = (ALL_OK, s1)) := by
  subst he
  simp only [hst] at hf
  refine ⟨fun h0 hm => ?_, fun h0 hm => ?_, fun h0 => ?_⟩
  · simp [st7789_async_completed_notify, hst, hf, h0, hm, seqCalls_ok beh _ _ hbeh]
  · simp [st7789_async_completed_notify, hst, hf, h0, hm, seqCalls_ok beh _ _ hbeh]
  · simp [st7789_async_completed_notify, hst, hf, h0, seqCalls_ok beh _ _ hbeh]

/-- C3 witness: the completion-notify theorem applied to a concrete
transfering serial device with a handler that stages nothing. -/
theorem claim_C3_completion_notify_witness :
    st7789_async_completed_notify behOK (some (fun t => (ALL_OK, t))) c3sim =
      (ALL_OK, { { c3sim with dev := { c3sim.dev with gramTxBufSize := 0 } } with
          dev := { { c3sim with dev :=
              { c3sim.dev with gramTxBufSize := 0 } }.dev with
            asyncState := AsyncState.idle },
          trace := { c3sim with dev :=
              { c3sim.dev with gramTxBufSize := 0 } }.trace ++
            [BusEvent.gpioDC 1, BusEvent.gpioCS 1] }) :=
  (claim_C3_completion_notify behOK (fun t => (ALL_OK, t)) c3sim ALL_OK
      { c3sim with dev := { c3sim.dev with gramTxBufSize := 0 } }
      rfl (fun _ => rfl) rfl rfl).1 rfl rfl

/-- callBus leaves the device untouched. -/
theorem callBus_dev (beh : BusBeh) (e : BusEvent) (s : SimState) :
    (callBus beh e s).2.dev = s.dev := rfl

/-- callBusAcquire leaves the device untouched. -/
theorem callBusAcquire_dev (beh : BusBeh) (s : SimState) :
    (callBusAcquire beh s).2.dev = s.dev := by
  by_cases h : s.dev.op.hasBusAcquire <;> simp [callBusAcquire, callBus, h]

/-- callBusRelease leaves the device untouched. -/
theorem callBusRelease_dev (beh : BusBeh) (s : SimState) :
    (callBusRelease beh s).2.dev = s.dev := by
  by_cases h : s.dev.op.hasBusRelease <;> simp [callBusRelease, callBus, h]

/-- seqCalls leaves the device untouched. -/
theorem seqCalls_dev (beh : BusBeh) (es : List BusEvent) (s : SimState) :
    (seqCalls beh es s).2.dev = s.dev := by
  induction es generalizing s with
  | nil => rfl
  | cons e es ih => simp [seqCalls, callBus]; split <;> simp [ih]

/-- st7789_write_command leaves the device untouched (it only talks on the
bus). -/
theorem write_command_dev (beh : BusBeh) (s : SimState) (c : Nat)
    (p : List Nat) (n : Nat) :
    (st7789_write_command beh s c p n).2.dev = s.dev := by
  simp only [st7789_write_command]
  repeat' split
  all_goals
    simp [callBusRelease_dev, seqCalls_dev, callBusAcquire_dev, callBus_dev]

/-- The shared error_exit label forces the async state to idle and its last
attempted bus call is the release (when a release hook is installed). -/
theorem streamErrorExit_spec (beh : BusBeh) (e : Int) (s : SimState)
    (h : s.dev.op.hasBusRelease = true) :
    (streamErrorExit beh e s).2.dev.asyncState = AsyncState.idle ∧
    (streamErrorExit beh e s).2.trace.getLast? = some BusEvent.busRelease := by
  simp only [streamErrorExit, callBusRelease, callBus, h, if_true]
  split <;> simp [List.getLast?_concat]

/-- The first-transfer command block leaves the device untouched. -/
theorem stream_start_first_cmds_dev (beh : BusBeh) (s : SimState) :
    (stream_start_first_cmds beh s).2.dev = s.dev := by
  simp only [stream_start_first_cmds]
  repeat' split
  all_goals simp [write_command_dev, seqCalls_dev]

/-- The dispatch block only appends the async-start event: the device is
untouched. -/
theorem stream_start_send_dev (beh : BusBeh) (s : SimState) :
    (stream_start_send beh s).2.dev = s.dev := by
  simp only [stream_start_send]
  repeat' split
  all_goals simp [callBus]

/-- Every run of st7789_update_gram_stream_start from a staged state with a
working acquire hook either succeeds or returns through the error_exit label,
and the state handed to error_exit still carries the device's op table. -/
theorem stream_start_shape (beh : BusBeh) (s : SimState) (hid hp : Nat)
    (hst : s.dev.asyncState = AsyncState.bufferLoaded ∨
           s.dev.asyncState = AsyncState.bufferReloaded)
    (hacq : s.dev.op.hasBusAcquire = true → beh BusEvent.busAcquire = ALL_OK) :
    (∃ s2, st7789_update_gram_stream_start beh s hid hp = (ALL_OK, s2)) ∨
    (∃ e s2, st7789_update_gram_stream_start beh s hid hp =
        streamErrorExit beh e s2 ∧ s2.dev.op = s.dev.op) := by
  obtain ⟨sA, hr0, hdevA⟩ : ∃ sA, callBusAcquire beh
      { s with dev := { s.dev with handlerId := hid, handlerParams := hp } } =
        (ALL_OK, sA) ∧
      sA.dev = { s.dev with handlerId := hid, handlerParams := hp } := by
    by_cases hA : s.dev.op.hasBusAcquire
    · exact ⟨{ s with
          dev := { s.dev with handlerId := hid, handlerParams := hp },
          trace := s.trace ++ [BusEvent.busAcquire] },
        by simp [callBusAcquire, callBus, hA, hacq hA], rfl⟩
    · exact ⟨{ s with dev := { s.dev with handlerId := hid, handlerParams := hp } },
             by simp [callBusAcquire, hA], rfl⟩
  rcases hr1 : stream_start_first_cmds beh sA with ⟨e1, sB⟩
  have hdevB : sB.dev = sA.dev := by
    have h2 := stream_start_first_cmds_dev beh sA
    rw [hr1] at h2; exact h2
  rcases hst with h | h
  · -- bufferLoaded: the first-transfer command block runs
    simp only [h] at hr0 hdevA
    rcases hr2 : stream_start_send beh
        { sB with dev := { sB.dev with asyncState := AsyncState.transfering } }
      with ⟨e2, sC⟩
    have hdevC : sC.dev = { sB.dev with asyncState := AsyncState.transfering } := by
      have h3 := stream_start_send_dev beh
        { sB with dev := { sB.dev with asyncState := AsyncState.transfering } }
      rw [hr2] at h3; exact h3
    by_cases he1 : e1 = ALL_OK
    · by_cases he2 : e2 = ALL_OK
      · left
        refine ⟨sC, ?_⟩
        simp [st7789_update_gram_stream_start, h, hr0, hdevA, hr1, he1, hr2, he2]
      · right
        refine ⟨e2, sC, ?_, ?_⟩
        · simp [st7789_update_gram_stream_start, h, hr0, hdevA, hr1, he1, hr2, he2]
        · simp [hdevC, hdevB, hdevA]
    · right
      refine ⟨e1, sB, ?_, ?_⟩
      · simp [st7789_update_gram_stream_start, h, hr0, hdevA, hr1, he1]
      · simp [hdevB, hdevA]
  · -- bufferReloaded: the command block is skipped
    simp only [h] at hr0 hdevA
    rcases hr2 : stream_start_send beh
        { sA with dev := { sA.dev with asyncState := AsyncState.transfering } }
      with ⟨e2, sC⟩
    have hdevC : sC.dev = { sA.dev with asyncState := AsyncState.transfering } := by
      have h3 := stream_start_send_dev beh
        { sA with dev := { sA.dev with asyncState := AsyncState.transfering } }
      rw [hr2] at h3; exact h3
    simp only [hdevA] at hr2 hdevC
    by_cases he2 : e2 = ALL_OK
    · left
      refine ⟨sC, ?_⟩
      simp [st7789_update_gram_stream_start, h, hr0, hdevA, hr2, he2]
    · right
      refine ⟨e2, sC, ?_, ?_⟩
      · simp [st7789_update_gram_stream_start, h, hr0, hdevA, hr2, he2]
      · simp [hdevC, hdevA]

/-- Every run of st7789_async_completed_notify from a transfering state with
an op-preserving handler either succeeds or returns through the error_exit
label, and the state handed to error_exit still carries the device's op
table. -/
theorem notify_shape (beh : BusBeh) (f : SimState → Int × SimState) (s : SimState)
    (hst : s.dev.asyncState = AsyncState.transfering)
    (hfop : ∀ t, (f t).2.dev.op = t.dev.op) :
    (∃ s2, st7789_async_completed_notify beh (some f) s = (ALL_OK, s2)) ∨
    (∃ e s2, st7789_async_completed_notify beh (some f) s =
        streamErrorExit beh e s2 ∧ s2.dev.op = s.dev.op) := by
  rcases hrh : f { s with dev := { s.dev with gramTxBufSize := 0 } } with ⟨e1, s1⟩
  have hop1 : s1.dev.op = s.dev.op := by
    have h2 := hfop { s with dev := { s.dev with gramTxBufSize := 0 } }
    rw [hrh] at h2; exact h2
  rcases hre : seqCalls beh [BusEvent.gpioDC 1, BusEvent.gpioCS 1] s1 with ⟨e2, s2⟩
  have hop2 : s2.dev.op = s1.dev.op := by
    have h3 := seqCalls_dev beh [BusEvent.gpioDC 1, BusEvent.gpioCS 1] s1
    rw [hre] at h3; rw [h3]
  simp only [hst] at hrh
  by_cases he1 : e1 = ALL_OK
  · by_cases hsz : s1.dev.gramTxBufSize ≠ 0
    · left
      exact ⟨s1, by simp [st7789_async_completed_notify, hst, hrh, he1, hsz]⟩
    · by_cases hm1 : s1.dev.op.busMode = 1
      · by_cases he2 : e2 = ALL_OK
        · left
          refine ⟨{ s2 with dev := { s2.dev with asyncState := AsyncState.idle } }, ?_⟩
          simp [st7789_async_completed_notify, hst, hrh, he1, hsz, hm1, hre, he2]
        · right
          refine ⟨e2, s2, ?_, by rw [hop2, hop1]⟩
          simp [st7789_async_completed_notify, hst, hrh, he1, hsz, hm1, hre, he2]
      · by_cases hm2 : s1.dev.op.busMode = 2
        · left
          refine ⟨{ s1 with dev := { s1.dev with asyncState := AsyncState.idle } }, ?_⟩
          simp [st7789_async_completed_notify, hst, hrh, he1, hsz, hm1, hm2]
        · right
          refine ⟨E_INVALID_ARGUMENT, s1, ?_, hop1⟩
          simp [st7789_async_completed_notify, hst, hrh, he1, hsz, hm1, hm2,
                E_INVALID_ARGUMENT, ALL_OK]
  · right
    refine ⟨e1, s1, ?_, hop1⟩
    simp [st7789_async_completed_notify, hst, hrh, he1]

/-- C5: with a working acquire hook and a release hook installed, any failure
of st7789_update_gram_stream_start entered from a staged state, and any
failure of st7789_async_completed_notify entered mid-transfer (with an
op-preserving completion handler), leaves the async state forced back to
Idle and the last attempted bus call before returning is the bus release:
the device is never left stuck in Transferring and the bus is never left
held on a failure path. -/
theorem claim_C5_failure_cleanup (beh : BusBeh) (s : SimState)
    (f : SimState → Int × SimState) (hid hp : Nat)
    (hrel : s.dev.op.hasBusRelease = true)
    (hacq : s.dev.op.hasBusAcquire = true → beh BusEvent.busAcquire = ALL_OK)
    (hfop : ∀ t, (f t).2.dev.op = t.dev.op) :
    ((s.dev.asyncState = AsyncState.bufferLoaded ∨
      s.dev.asyncState = AsyncState.bufferReloaded) →
      (st7789_update_gram_stream_start beh s hid hp).1 ≠ ALL_OK →
      (st7789_update_gram_stream_start beh s hid hp).2.dev.asyncState =
        AsyncState.idle ∧
      (st7789_update_gram_stream_start beh s hid hp).2.trace.getLast? =
        some BusEvent.busRelease) ∧
    (s.dev.asyncState = AsyncState.transfering →
      (st7789_async_completed_notify beh (some f) s).1 ≠ ALL_OK →
      (st7789_async_completed_notify beh (some f) s).2.dev.asyncState =
        AsyncState.idle ∧
      (st7789_async_completed_notify beh (some f) s).2.trace.getLast? =
        some BusEvent.busRelease) := by
  constructor
  · intro hst hfail
    rcases stream_start_shape beh s hid hp hst hacq with ⟨s2, heq⟩ | ⟨e, s2, heq, hop⟩
    · rw [heq] at hfail; simp at hfail
    · rw [heq] at hfail ⊢
      exact streamErrorExit_spec beh e s2 (by rw [hop]; exact hrel)
  · intro hst hfail
    rcases notify_shape beh f s hst hfop with ⟨s2, heq⟩ | ⟨e, s2, heq, hop⟩
    · rw [heq] at hfail; simp at hfail
    · rw [heq] at hfail ⊢
      exact streamErrorExit_spec beh e s2 (by rw [hop]; exact hrel)

/-- C5 witness: the cleanup theorem applied to a concrete device whose
asynchronous write-start fails: the call fails, the state is back to Idle and
the last bus call is the release. -/
theorem claim_C5_failure_cleanup_witness :
    (st7789_update_gram_stream_start behAsyncFail c5sim 0 0).1 ≠ ALL_OK ∧
    (st7789_update_gram_stream_start behAsyncFail c5sim 0 0).2.dev.asyncState =
      AsyncState.idle ∧
    (st7789_update_gram_stream_start behAsyncFail c5sim 0 0).2.trace.getLast? =
      some BusEvent.busRelease := by
  have h := (claim_C5_failure_cleanup behAsyncFail c5sim (fun t => (ALL_OK, t)) 0 0
      rfl (fun _ => rfl) (fun _ => rfl)).1 (Or.inl rfl) (by decide)
  exact ⟨by decide, h.1, h.2⟩

/-- The 32-bit wrapped difference of two wrapped readings of a monotonic
clock recovers the true elapsed time whenever it is below 2 to the 32. -/
theorem u32sub_wrap (M e : Nat) (he : e < 2 ^ 32) :
    u32sub ((M + e) % 2 ^ 32) (M % 2 ^ 32) = e := by
  unfold u32sub
  omega

/-- If the device never goes idle and some observed elapsed time exceeds the
timeout, the busy-wait loop reports E_HARDWARE_TIMEOUT, for every absolute
start tick M, even when the 32-bit tick counter wraps during the wait. -/
theorem wait_loop_timeout (timeout M : Nat) (stateAt : Nat → AsyncState)
    (hbusy : ∀ i, stateAt i ≠ AsyncState.idle) :
    ∀ (es : List Nat) (i : Nat), (∀ e ∈ es, e < 2 ^ 32) → (∃ e ∈ es, timeout < e) →
    st7789_wait_loop timeout (M % 2 ^ 32) stateAt i
        (es.map fun e => (M + e) % 2 ^ 32) = some E_HARDWARE_TIMEOUT := by
  intro es
  induction es with
  | nil => intro i _ hex; simp at hex
  | cons e es ih =>
    intro i hlt hex
    simp only [List.map_cons, st7789_wait_loop]
    rw [if_neg (hbusy i), u32sub_wrap M e (hlt e (List.mem_cons_self e es))]
    by_cases hht : timeout < e
    · rw [if_pos hht]
    · rw [if_neg hht]
      rcases hex with ⟨x, hx, hxt⟩
      rcases List.mem_cons.mp hx with rfl | hxs
      · exact absurd hxt hht
      · exact ih (i + 1) (fun y hy => hlt y (List.mem_cons_of_mem e hy)) ⟨x, hxs, hxt⟩

/-- C6: st7789_wait_async_complete returns success immediately when the
device is already Idle at entry; it never touches the simulation state (no
bus call is made by the wait); and when the device stays non-Idle, the wait
reports E_HARDWARE_TIMEOUT as soon as a tick reading shows a true elapsed
time beyond the timeout, computed correctly through 32-bit wraparound of the
tick counter (the readings are the wrapped values of an arbitrary absolute
start M plus the true elapsed times es). -/
theorem claim_C6_wait_complete (timeout M : Nat) (stateAt : Nat → AsyncState)
    (es ticks : List Nat) (s : SimState) :
    (stateAt 0 = AsyncState.idle →
      st7789_wait_async_complete timeout stateAt (M :: ticks) s = (some ALL_OK, s)) ∧
    ((st7789_wait_async_complete timeout stateAt ticks s).2 = s) ∧
    ((∀ i, stateAt i ≠ AsyncState.idle) → (∀ e ∈ es, e < 2 ^ 32) →
      (∃ e ∈ es, timeout < e) →
      st7789_wait_async_complete timeout stateAt
          (M % 2 ^ 32 :: es.map fun e => (M + e) % 2 ^ 32) s =
        (some E_HARDWARE_TIMEOUT, s)) := by
  refine ⟨fun hidle => ?_, ?_, fun hbusy hlt hex => ?_⟩
  · cases ticks <;> simp [st7789_wait_async_complete, st7789_wait_loop, hidle]
  · cases ticks <;> rfl
  · rw [st7789_wait_async_complete,
        wait_loop_timeout timeout M stateAt hbusy es 0 hlt hex]

/-- C6 witness: the wait theorem applied at an idle device, and at a busy
device whose 32-bit tick counter wraps from near its maximum during the
wait (start tick 4294967286, readings after 5 and 60 elapsed milliseconds,
timeout 40). -/
theorem claim_C6_wait_complete_witness :
    st7789_wait_async_complete 40 (fun _ => AsyncState.idle) [7]
        (mkClearSim 1 1 1 1) = (some ALL_OK, mkClearSim 1 1 1 1) ∧
    st7789_wait_async_complete 40 (fun _ => AsyncState.transfering)
        (4294967286 % 2 ^ 32 :: [5, 60].map fun e => (4294967286 + e) % 2 ^ 32)
        (mkClearSim 1 1 1 1) = (some E_HARDWARE_TIMEOUT, mkClearSim 1 1 1 1) :=
  ⟨(claim_C6_wait_complete 40 7 (fun _ => AsyncState.idle) [] []
      (mkClearSim 1 1 1 1)).1 rfl,
   (claim_C6_wait_complete 40 4294967286 (fun _ => AsyncState.transfering)
      [5, 60] [] (mkClearSim 1 1 1 1)).2.2 (fun _ => by decide)
      (by decide) ⟨60, by decide, by decide⟩⟩

/-- An SPI write_command with a non-empty payload under a fault-free bus and
no acquire/release hooks: it succeeds and appends exactly the command
sequence (D/C low, select, command byte, D/C high, payload, deselect). -/
theorem write_command_spi_args (beh : BusBeh) (s : SimState) (c : Nat)
    (p : List Nat) (n : Nat) (hbeh : ∀ e, beh e = ALL_OK)
    (hmode : s.dev.op.busMode = 1)
    (hacq : s.dev.op.hasBusAcquire = false)
    (hrel : s.dev.op.hasBusRelease = false) (hn : n ≠ 0) :
    st7789_write_command beh s c p n =
      (ALL_OK, { s with trace := s.trace ++
        [BusEvent.gpioDC 0, BusEvent.gpioCS 0, BusEvent.spiWrite 1 [c],
         BusEvent.gpioDC 1, BusEvent.spiWrite n p, BusEvent.gpioCS 1] }) := by
  simp [st7789_write_command, callBusAcquire, callBusRelease, hacq, hrel,
        hmode, hn, seqCalls_ok beh _ _ hbeh]

/-- An SPI write_command with an empty payload under a fault-free bus and no
acquire/release hooks: it succeeds and appends the short command sequence
(D/C low, select, command byte, deselect, D/C high). -/
theorem write_command_spi_noargs (beh : BusBeh) (s : SimState) (c : Nat)
    (p : List Nat) (hbeh : ∀ e, beh e = ALL_OK)
    (hmode : s.dev.op.busMode = 1)
    (hacq : s.dev.op.hasBusAcquire = false)
    (hrel : s.dev.op.hasBusRelease = false) :
    st7789_write_command beh s c p 0 =
      (ALL_OK, { s with trace := s.trace ++
        [BusEvent.gpioDC 0, BusEvent.gpioCS 0, BusEvent.spiWrite 1 [c],
         BusEvent.gpioCS 1, BusEvent.gpioDC 1] }) := by
  simp [st7789_write_command, callBusAcquire, callBusRelease, hacq, hrel,
        hmode, seqCalls_ok beh _ _ hbeh]

/-- C10: st7789_display_set_window accepts any rectangle whose four
coordinates lie within 0..240 for left/right and 0..320 for top/bottom, with
no requirement that top be at most bottom nor any comparison against the
device's configured resolution (the device in s is arbitrary); under a
fault-free serial bus it succeeds and transmits CASET and then RASET, each
carrying byte-swapped begin and end words where the inclusive end is the
16-bit truncation of coordinate minus one; in particular for bottom = 0 the
row-end word before byte-swapping is the 16-bit truncation of minus one,
0xFFFF = 65535. -/
theorem claim_C10_set_window (beh : BusBeh) (s : SimState) (rect : Rect)
    (hbeh : ∀ e, beh e = ALL_OK)
    (hmode : s.dev.op.busMode = 1)
    (hacq : s.dev.op.hasBusAcquire = false)
    (hrel : s.dev.op.hasBusRelease = false)
    (h1 : rect.top ≥ 0) (h2 : rect.bottom ≥ 0) (h3 : rect.left ≥ 0)
    (h4 : rect.right ≥ 0) (h5 : rect.top ≤ 320) (h6 : rect.bottom ≤ 320)
    (h7 : rect.left ≤ 240) (h8 : rect.right ≤ 240) :
    st7789_display_set_window beh s rect =
      (ALL_OK, { s with trace := s.trace ++
        ([BusEvent.gpioDC 0, BusEvent.gpioCS 0, BusEvent.spiWrite 1 [CASET],
          BusEvent.gpioDC 1,
          BusEvent.spiWrite 4
            [u16ecv (toU16 rect.left), u16ecv (toU16 (rect.right - 1))],
          BusEvent.gpioCS 1] ++
         [BusEvent.gpioDC 0, BusEvent.gpioCS 0, BusEvent.spiWrite 1 [RASET],
          BusEvent.gpioDC 1,
          BusEvent.spiWrite 4
            [u16ecv (toU16 rect.top), u16ecv (toU16 (rect.bottom - 1))],
          BusEvent.gpioCS 1]) }) ∧
    (rect.bottom = 0 → toU16 (rect.bottom - 1) = 65535) := by
  constructor
  · have hw1 := write_command_spi_args beh s CASET
      [u16ecv (toU16 rect.left), u16ecv (toU16 (rect.right - 1))] 4
      hbeh hmode hacq hrel (by decide)
    have hw2 := write_command_spi_args beh
      { s with trace := s.trace ++
        [BusEvent.gpioDC 0, BusEvent.gpioCS 0, BusEvent.spiWrite 1 [CASET],
         BusEvent.gpioDC 1,
         BusEvent.spiWrite 4
           [u16ecv (toU16 rect.left), u16ecv (toU16 (rect.right - 1))],
         BusEvent.gpioCS 1] } RASET
      [u16ecv (toU16 rect.top), u16ecv (toU16 (rect.bottom - 1))] 4
      hbeh hmode hacq hrel (by decide)
    simp [st7789_display_set_window, h1, h2, h3, h4, h5, h6, h7, h8, hw1, hw2]
  · intro hb
    rw [hb]
    decide

/-- C10 witness: the theorem applied to a 1-by-1 device (so both ends exceed
the configured resolution) and the rectangle with top 5, bottom 0 (bottom
strictly below top), left 0, right 240. -/
theorem claim_C10_set_window_witness :
    st7789_display_set_window behOK (mkClearSim 1 1 1 1)
        { top := 5, bottom := 0, left := 0, right := 240 } =
      (ALL_OK, { mkClearSim 1 1 1 1 with trace := (mkClearSim 1 1 1 1).trace ++
        ([BusEvent.gpioDC 0, BusEvent.gpioCS 0, BusEvent.spiWrite 1 [CASET],
          BusEvent.gpioDC 1,
          BusEvent.spiWrite 4 [u16ecv (toU16 0), u16ecv (toU16 (240 - 1))],
          BusEvent.gpioCS 1] ++
         [BusEvent.gpioDC 0, BusEvent.gpioCS 0, BusEvent.spiWrite 1 [RASET],
          BusEvent.gpioDC 1,
          BusEvent.spiWrite 4 [u16ecv (toU16 5), u16ecv (toU16 (0 - 1))],
          BusEvent.gpioCS 1]) }) ∧
    toU16 ((0 : Int) - 1) = 65535 := by
  have h := claim_C10_set_window behOK (mkClearSim 1 1 1 1)
    { top := 5, bottom := 0, left := 0, right := 240 }
    (fun _ => rfl) rfl rfl rfl (by decide) (by decide) (by decide) (by decide)
    (by decide) (by decide) (by decide) (by decide)
  exact ⟨h.1, h.2 rfl⟩

/-- One completion interrupt while scanlines remain: the clear handler stages
min(linesLeft, B / w) further lines, re-arms the stream (one asynchronous
write-start of that many pixels, no other bus traffic), and the device stays
mid-transfer with the lines counter decremented. -/
theorem clear_notify_step (w B buf : Nat) (s : SimState)
    (inv : ClearMidInv w B buf s) (hw : 1 ≤ w) (hcap : 1 ≤ B / w)
    (hbuf : buf ≠ 0) (hl : 0 < s.cfg.linesLeft) :
    st7789_async_completed_notify behOK
        (some (st7789_clear_gram_cplt_handler behOK)) s =
      (ALL_OK, { s with
        dev := { s.dev with
          handlerId := clearHandlerId, handlerParams := s.argsPtr,
          asyncState := AsyncState.transfering,
          gramTxBuf := buf,
          gramTxBufSize := w *
            (if s.cfg.linesLeft > B / w then B / w else s.cfg.linesLeft) },
        cfg := { s.cfg with
          linesLeft := s.cfg.linesLeft -
            (if s.cfg.linesLeft > B / w then B / w else s.cfg.linesLeft) },
        trace := s.trace ++
          [BusEvent.spiWriteAsyncStart
            (w * (if s.cfg.linesLeft > B / w then B / w else s.cfg.linesLeft))
            buf] }) := by
  have hnz : w * (if s.cfg.linesLeft > B / w then B / w else s.cfg.linesLeft) ≠ 0 :=
    Nat.pos_iff_ne_zero.mp (Nat.mul_pos (by omega) (by split <;> omega))
  have hnz2 : (if B / w < s.cfg.linesLeft then w * (B / w) else w * s.cfg.linesLeft) ≠ 0 := by
    split <;> exact Nat.pos_iff_ne_zero.mp (Nat.mul_pos (by omega) (by omega))
  simp [st7789_async_completed_notify, st7789_clear_gram_cplt_handler,
        st7789_clear_gram_set_buf, st7789_update_gram_set_buff,
        st7789_update_gram_stream_start, stream_start_send,
        callBusAcquire, callBus, behOK,
        inv.hstate, inv.hresX, inv.hmode, inv.hbsize, inv.habuf, inv.hacq,
        hbuf, hl, hnz, hnz2]

/-- The completion interrupt after the last chunk: the clear handler frees
the buffer and args block, stages nothing, so the engine emits the serial
end-of-transfer sequence once and goes Idle. -/
theorem clear_notify_final (w B buf : Nat) (s : SimState)
    (inv : ClearMidInv w B buf s) (hl : s.cfg.linesLeft = 0) :
    st7789_async_completed_notify behOK
        (some (st7789_clear_gram_cplt_handler behOK)) s =
      (ALL_OK, { s with
        dev := { s.dev with gramTxBufSize := 0, asyncState := AsyncState.idle },
        bufFreed := true, argsFreed := true,
        trace := s.trace ++ [BusEvent.gpioDC 1, BusEvent.gpioCS 1] }) := by
  simp [st7789_async_completed_notify, st7789_clear_gram_cplt_handler,
        callBus, behOK, seqCalls, inv.hstate, inv.hmode, hl]

/-- The bootstrap invocation of the clear handler from an idle device with
scanlines left: it stages the first chunk, sends RAMWR plus the serial
data-mode prologue, marks transfering and dispatches the chunk. -/
theorem clear_boot_step (w B buf : Nat) (s : SimState)
    (hstate : s.dev.asyncState = AsyncState.idle)
    (hresX : s.dev.resX = w) (hmode : s.dev.op.busMode = 1)
    (hbsize : s.argsBufSize = B) (habuf : s.argsBuf = buf)
    (hacq : s.dev.op.hasBusAcquire = false)
    (hrel : s.dev.op.hasBusRelease = false)
    (hbuf : buf ≠ 0) (hl : 0 < s.cfg.linesLeft) :
    st7789_clear_gram_cplt_handler behOK s =
      (ALL_OK, { s with
        dev := { s.dev with
          handlerId := clearHandlerId, handlerParams := s.argsPtr,
          asyncState := AsyncState.transfering,
          gramTxBuf := buf,
          gramTxBufSize := w *
            (if s.cfg.linesLeft > B / w then B / w else s.cfg.linesLeft) },
        cfg := { s.cfg with
          linesLeft := s.cfg.linesLeft -
            (if s.cfg.linesLeft > B / w then B / w else s.cfg.linesLeft) },
        trace := s.trace ++
          [BusEvent.gpioDC 0, BusEvent.gpioCS 0, BusEvent.spiWrite 1 [RAMWR],
           BusEvent.gpioCS 1, BusEvent.gpioDC 1,
           BusEvent.gpioDC 1, BusEvent.gpioCS 0,
           BusEvent.spiWriteAsyncStart
             (w * (if s.cfg.linesLeft > B / w then B / w else s.cfg.linesLeft))
             buf] }) := by
  simp [st7789_clear_gram_cplt_handler, st7789_clear_gram_set_buf,
        st7789_update_gram_set_buff, st7789_update_gram_stream_start,
        stream_start_first_cmds, stream_start_send, st7789_write_command,
        seqCalls, callBusAcquire, callBusRelease, callBus, behOK,
        hstate, hresX, hmode, hbsize, habuf, hacq, hrel, hbuf, hl]

/-- asyncStartSizes distributes over trace concatenation. -/
theorem asyncStartSizes_append (a b : List BusEvent) :
    asyncStartSizes (a ++ b) = asyncStartSizes a ++ asyncStartSizes b := by
  induction a with
  | nil => rfl
  | cons e a ih => cases e <;> simp [asyncStartSizes, ih]

/-- The notify driver does nothing when no transfer is outstanding. -/
theorem clearNotifyRun_idle (beh : BusBeh) (fuel : Nat) (s : SimState)
    (h : s.dev.asyncState ≠ AsyncState.transfering) :
    clearNotifyRun beh fuel s = (0, ALL_OK, s) := by
  cases fuel <;> simp [clearNotifyRun, h]

/-- Driving the clear pipeline with completion interrupts from any
mid-transfer state: with enough fuel the run ends cleanly in Idle with both
heap blocks freed, the dispatched chunk sizes sum to width times the
remaining lines, every newly dispatched chunk is at most the buffer size,
and the number of interrupts is the number of new chunks plus one. -/
theorem clearNotifyRun_spec (w B buf : Nat) (hw : 1 ≤ w) (hcap : 1 ≤ B / w)
    (hbuf : buf ≠ 0) :
    ∀ (fuel : Nat) (s : SimState), ClearMidInv w B buf s →
      s.cfg.linesLeft + 1 ≤ fuel →
      (clearNotifyRun behOK fuel s).2.1 = ALL_OK ∧
      (clearNotifyRun behOK fuel s).2.2.dev.asyncState = AsyncState.idle ∧
      (clearNotifyRun behOK fuel s).2.2.bufFreed = true ∧
      (clearNotifyRun behOK fuel s).2.2.argsFreed = true ∧
      (asyncStartSizes (clearNotifyRun behOK fuel s).2.2.trace).sum =
        (asyncStartSizes s.trace).sum + w * s.cfg.linesLeft ∧
      (∀ c ∈ asyncStartSizes (clearNotifyRun behOK fuel s).2.2.trace,
        c ∈ asyncStartSizes s.trace ∨ c ≤ B) ∧
      (clearNotifyRun behOK fuel s).1 + (asyncStartSizes s.trace).length =
        (asyncStartSizes (clearNotifyRun behOK fuel s).2.2.trace).length + 1 := by
  intro fuel
  induction fuel with
  | zero => intro s inv hfuel; omega
  | succ f ih =>
    intro s inv hfuel
    by_cases hl : s.cfg.linesLeft = 0
    · have hstep := clear_notify_final w B buf s inv hl
      have hrun : clearNotifyRun behOK (f + 1) s =
          (1, ALL_OK, { s with
            dev := { s.dev with gramTxBufSize := 0, asyncState := AsyncState.idle },
            bufFreed := true, argsFreed := true,
            trace := s.trace ++ [BusEvent.gpioDC 1, BusEvent.gpioCS 1] }) := by
        simp [clearNotifyRun, inv.hstate, hstep, clearNotifyRun_idle]
      rw [hrun]
      refine ⟨rfl, rfl, rfl, rfl, ?_, ?_, ?_⟩
      · simp [asyncStartSizes_append, asyncStartSizes, hl]
      · intro c hc
        simp [asyncStartSizes_append, asyncStartSizes] at hc
        exact Or.inl hc
      · simp [asyncStartSizes_append, asyncStartSizes]
        omega
    · have hl0 : 0 < s.cfg.linesLeft := Nat.pos_of_ne_zero hl
      have hstep := clear_notify_step w B buf s inv hw hcap hbuf hl0
      set l := s.cfg.linesLeft with hldef
      set ltw := (if l > B / w then B / w else l) with hltwdef
      set sNext : SimState := { s with
          dev := { s.dev with
            handlerId := clearHandlerId, handlerParams := s.argsPtr,
            asyncState := AsyncState.transfering,
            gramTxBuf := buf, gramTxBufSize := w * ltw },
          cfg := { s.cfg with linesLeft := l - ltw },
          trace := s.trace ++ [BusEvent.spiWriteAsyncStart (w * ltw) buf] }
        with hsNext
      have hltw_le : ltw ≤ l := by rw [hltwdef]; split <;> omega
      have hltw_pos : 1 ≤ ltw := by rw [hltwdef]; split <;> omega
      have hchunk : w * ltw ≤ B := by
        have h1 : ltw ≤ B / w := by rw [hltwdef]; split <;> omega
        calc w * ltw ≤ w * (B / w) := Nat.mul_le_mul_left w h1
          _ ≤ B := by rw [Nat.mul_comm]; exact Nat.div_mul_le_self B w
      have invN : ClearMidInv w B buf sNext :=
        ⟨rfl, inv.hresX, inv.hmode, inv.hbsize, inv.habuf, inv.hacq, inv.hrel⟩
      have hLL : sNext.cfg.linesLeft = l - ltw := rfl
      have hflN : sNext.cfg.linesLeft + 1 ≤ f := by rw [hLL]; omega
      have ihres := ih sNext invN hflN
      have hrun : clearNotifyRun behOK (f + 1) s =
          ((clearNotifyRun behOK f sNext).1 + 1,
           (clearNotifyRun behOK f sNext).2.1,
           (clearNotifyRun behOK f sNext).2.2) := by
        simp [clearNotifyRun, inv.hstate, hstep]
      have htr : sNext.trace =
          s.trace ++ [BusEvent.spiWriteAsyncStart (w * ltw) buf] := rfl
      have hsizes : asyncStartSizes sNext.trace =
          asyncStartSizes s.trace ++ [w * ltw] := by
        rw [htr, asyncStartSizes_append]
        simp [asyncStartSizes]
      have hmul : w * ltw + w * (l - ltw) = w * l := by
        rw [← Nat.mul_add]
        congr 1
        omega
      have hproj1 : (clearNotifyRun behOK (f + 1) s).1 =
          (clearNotifyRun behOK f sNext).1 + 1 := by rw [hrun]
      have hproj2 : (clearNotifyRun behOK (f + 1) s).2.1 =
          (clearNotifyRun behOK f sNext).2.1 := by rw [hrun]
      have hproj3 : (clearNotifyRun behOK (f + 1) s).2.2 =
          (clearNotifyRun behOK f sNext).2.2 := by rw [hrun]
      rw [hproj1, hproj2, hproj3]
      refine ⟨ihres.1, ihres.2.1, ihres.2.2.1, ihres.2.2.2.1, ?_, ?_, ?_⟩
      · have hsum := ihres.2.2.2.2.1
        rw [hLL, hsizes, List.sum_append] at hsum
        simp only [List.sum_cons, List.sum_nil] at hsum
        omega
      · intro c hc
        rcases ihres.2.2.2.2.2.1 c hc with hin | hle
        · rw [hsizes] at hin
          rcases List.mem_append.mp hin with hin0 | hin1
          · exact Or.inl hin0
          · rcases List.mem_singleton.mp hin1 with rfl
            exact Or.inr hchunk
        · exact Or.inr hle
      · have hcount := ihres.2.2.2.2.2.2
        have hlen : (asyncStartSizes sNext.trace).length =
            (asyncStartSizes s.trace).length + 1 := by
          rw [hsizes]
          simp
        rw [hlen] at hcount
        omega

/-- C4: driven by the self-re-arming clear completion handler, the repeated
set-buffer/start-stream/completion-notify cycles paint exactly
panel-width times panel-height pixels in total (the dispatched asynchronous
write-start sizes sum to w * h), every chunk is at most the ping-pong
buffer's pixel capacity B, the number of completion-notify cycles equals the
number of chunks, and the run ends Idle with the heap buffer and the args
block freed; in particular for width 128, a buffer of 5 lines (640 pixels)
and height 13, the chunks are 640, 640, 384 pixels (5, 5 and 3 lines) over
3 completion-notify cycles, and the buffer is not yet freed after only 2 of
them. -/
theorem claim_C4_clear_partitions (w h B buf fuel : Nat)
    (hw : 1 ≤ w) (hcap : 1 ≤ B / w) (hbuf : buf ≠ 0) (hfuel : h ≤ fuel) :
    (st7789_clear_gram_cplt_handler behOK (mkClearSim w h B buf)).1 = ALL_OK ∧
    (clearBootRun w h B buf fuel).2.1 = ALL_OK ∧
    (asyncStartSizes (clearBootRun w h B buf fuel).2.2.trace).sum = w * h ∧
    (∀ c ∈ asyncStartSizes (clearBootRun w h B buf fuel).2.2.trace, c ≤ B) ∧
    (clearBootRun w h B buf fuel).1 =
      (asyncStartSizes (clearBootRun w h B buf fuel).2.2.trace).length ∧
    (clearBootRun w h B buf fuel).2.2.dev.asyncState = AsyncState.idle ∧
    (clearBootRun w h B buf fuel).2.2.bufFreed = true ∧
    (clearBootRun w h B buf fuel).2.2.argsFreed = true ∧
    (w = 128 → h = 13 → B = 640 → buf = 1 → fuel = 13 →
      asyncStartSizes (clearBootRun w h B buf fuel).2.2.trace = [640, 640, 384] ∧
      (clearBootRun w h B buf fuel).1 = 3 ∧
      (clearBootRun w h B buf 2).2.2.bufFreed = false) := by
  by_cases hh : h = 0
  · subst hh
    have hboot : st7789_clear_gram_cplt_handler behOK (mkClearSim w 0 B buf) =
        (ALL_OK, { mkClearSim w 0 B buf with bufFreed := true, argsFreed := true }) := by
      simp [st7789_clear_gram_cplt_handler, mkClearSim]
    have hrun0 : ∀ fl, clearBootRun w 0 B buf fl =
        (0, ALL_OK,
          { mkClearSim w 0 B buf with bufFreed := true, argsFreed := true }) := by
      intro fl
      rw [clearBootRun, hboot]
      exact clearNotifyRun_idle behOK fl _ (by simp [mkClearSim])
    refine ⟨by rw [hboot], ?_, ?_, ?_, ?_, ?_, ?_, ?_, ?_⟩
    · rw [hrun0]
    · rw [hrun0]; simp [mkClearSim, asyncStartSizes]
    · rw [hrun0]; intro c hc; simp [mkClearSim, asyncStartSizes] at hc
    · rw [hrun0]; rfl
    · rw [hrun0]; rfl
    · rw [hrun0]
    · rw [hrun0]
    · intro _ h13
      exact absurd h13 (by decide)
  · have hl0 : 0 < h := Nat.pos_of_ne_zero hh
    have hboot := clear_boot_step w B buf (mkClearSim w h B buf)
      rfl rfl rfl rfl rfl rfl rfl hbuf hl0
    have hb1 : (st7789_clear_gram_cplt_handler behOK (mkClearSim w h B buf)).1 =
        ALL_OK := by rw [hboot]
    have hb2 : (st7789_clear_gram_cplt_handler behOK (mkClearSim w h B buf)).2 =
        { mkClearSim w h B buf with
          dev := { (mkClearSim w h B buf).dev with
            handlerId := clearHandlerId,
            handlerParams := (mkClearSim w h B buf).argsPtr,
            asyncState := AsyncState.transfering,
            gramTxBuf := buf,
            gramTxBufSize := w *
              (if (mkClearSim w h B buf).cfg.linesLeft > B / w then B / w
               else (mkClearSim w h B buf).cfg.linesLeft) },
          cfg := { (mkClearSim w h B buf).cfg with
            linesLeft := (mkClearSim w h B buf).cfg.linesLeft -
              (if (mkClearSim w h B buf).cfg.linesLeft > B / w then B / w
               else (mkClearSim w h B buf).cfg.linesLeft) },
          trace := (mkClearSim w h B buf).trace ++
            [BusEvent.gpioDC 0, BusEvent.gpioCS 0, BusEvent.spiWrite 1 [RAMWR],
             BusEvent.gpioCS 1, BusEvent.gpioDC 1,
             BusEvent.gpioDC 1, BusEvent.gpioCS 0,
             BusEvent.spiWriteAsyncStart
               (w * (if (mkClearSim w h B buf).cfg.linesLeft > B / w then B / w
                     else (mkClearSim w h B buf).cfg.linesLeft))
               buf] } := by rw [hboot]
    have invR : ClearMidInv w B buf
        ((st7789_clear_gram_cplt_handler behOK (mkClearSim w h B buf)).2) := by
      rw [hb2]
      exact ⟨rfl, rfl, rfl, rfl, rfl, rfl, rfl⟩
    have hlines : ((st7789_clear_gram_cplt_handler behOK
        (mkClearSim w h B buf)).2).cfg.linesLeft =
        h - (if h > B / w then B / w else h) := by rw [hb2]; rfl
    have htrR : asyncStartSizes ((st7789_clear_gram_cplt_handler behOK
        (mkClearSim w h B buf)).2).trace =
        [w * (if h > B / w then B / w else h)] := by
      rw [hb2]
      rfl
    have hltw0_pos : 1 ≤ (if h > B / w then B / w else h) := by split <;> omega
    have hltw0_le : (if h > B / w then B / w else h) ≤ h := by split <;> omega
    have hchunk0 : w * (if h > B / w then B / w else h) ≤ B := by
      have h1 : (if h > B / w then B / w else h) ≤ B / w := by split <;> omega
      calc w * (if h > B / w then B / w else h) ≤ w * (B / w) :=
          Nat.mul_le_mul_left w h1
        _ ≤ B := by rw [Nat.mul_comm]; exact Nat.div_mul_le_self B w
    have hflR : ((st7789_clear_gram_cplt_handler behOK
        (mkClearSim w h B buf)).2).cfg.linesLeft + 1 ≤ fuel := by
      rw [hlines]
      omega
    have rs := clearNotifyRun_spec w B buf hw hcap hbuf fuel _ invR hflR
    have hmul : w * (if h > B / w then B / w else h) +
        w * (h - (if h > B / w then B / w else h)) = w * h := by
      rw [← Nat.mul_add]
      congr 1
      omega
    refine ⟨hb1, rs.1, ?_, ?_, ?_, rs.2.1, rs.2.2.1, rs.2.2.2.1, ?_⟩
    · have hsum := rs.2.2.2.2.1
      rw [hlines, htrR] at hsum
      simp only [List.sum_cons, List.sum_nil] at hsum
      rw [clearBootRun]
      omega
    · intro c hc
      rw [clearBootRun] at hc
      rcases rs.2.2.2.2.2.1 c hc with hin | hle
      · rw [htrR] at hin
        rcases List.mem_singleton.mp hin with rfl
        exact hchunk0
      · exact hle
    · have hcount := rs.2.2.2.2.2.2
      rw [htrR] at hcount
      simp only [List.length_cons, List.length_nil] at hcount
      rw [clearBootRun]
      omega
    · intro hw128 hh13 hB640 hbuf1 hfuel13
      subst hw128
      subst hh13
      subst hB640
      subst hbuf1
      subst hfuel13
      refine ⟨by decide, by decide, by decide⟩

/-- C4 witness: the partition theorem applied at width 128, height 13 and a
640-pixel (5-line) buffer: chunks 640, 640, 384 pixels over 3
completion-notify cycles, buffer freed after the third and not after the
second, total 128 * 13 pixels. -/
theorem claim_C4_clear_partitions_witness :
    asyncStartSizes (clearBootRun 128 13 640 1 13).2.2.trace = [640, 640, 384] ∧
    (clearBootRun 128 13 640 1 13).1 = 3 ∧
    (clearBootRun 128 13 640 1 2).2.2.bufFreed = false ∧
    (clearBootRun 128 13 640 1 13).2.2.bufFreed = true ∧
    (clearBootRun 128 13 640 1 13).2.2.argsFreed = true ∧
    (asyncStartSizes (clearBootRun 128 13 640 1 13).2.2.trace).sum = 128 * 13 := by
  have h := claim_C4_clear_partitions 128 13 640 1 13
    (by decide) (by decide) (by decide) (by decide)
  obtain ⟨-, -, hsum, -, -, -, hbf, haf, himp⟩ := h
  obtain ⟨h1, h2, h3⟩ := himp rfl rfl rfl rfl rfl
  exact ⟨h1, h2, h3, hbf, haf, hsum⟩
